import Mathlib

/-!
Shallow embedding of the decadal climate-aggregation and risk-labeling
pipeline of `src/app.py` (repository ClimateHandover).

Conventions of the embedding:
* Python floats are modelled as rationals; a NaN value is modelled as
  `none : Option ℚ` (a Python comparison against NaN is false, matching
  the `Option.any` encodings below).
* A null entry of the remote daily series is `none` in a `TimePoint`.
* numpy aggregation (`ndarray.mean` / `ndarray.sum`) propagates NaN and
  yields NaN on an empty mean; pandas column aggregation (`Series.mean` /
  `Series.sum`) skips NaN and yields `0.0` for an all-NaN sum.
* pandas label slicing `df.loc['2031':'2040']` keeps the rows whose year
  lies between the two bounds inclusively.
-/

/-- One sample of the remote daily climate series: a date together with the
temperature and precipitation readings, either of which may be null. -/
structure TimePoint where
  year : Nat
  month : Nat
  day : Nat
  temp : Option ℚ
  precip : Option ℚ
deriving Repr, DecidableEq

/-- A future decade window of `get_climate_data` (the keys of the
`decades` dict), given by its display label and its inclusive year bounds. -/
structure DecadeWindow where
  label : String
  startYear : Nat
  endYear : Nat
deriving Repr, DecidableEq

/-- The fixed decade windows of `get_climate_data` (`app.py`, lines 102-106). -/
def decades : List DecadeWindow :=
  [⟨"2020s (2021-30)", 2021, 2030⟩,
   ⟨"2030s (2031-40)", 2031, 2040⟩,
   ⟨"2040s (2041-50)", 2041, 2050⟩]

/-- Membership of a sample in a decade window: `df_f.loc['2021':'2030']`
keeps exactly the samples whose year lies within the bounds, inclusive. -/
def inDecade (w : DecadeWindow) (p : TimePoint) : Bool :=
  decide (w.startYear ≤ p.year ∧ p.year ≤ w.endYear)

/-- The decadal slice `df_f.loc[start:end]` of a series. -/
def decadeSlice (w : DecadeWindow) (s : List TimePoint) : List TimePoint :=
  s.filter (fun p => inDecade w p)

/-- The non-null values of a column. -/
def nonNull (xs : List (Option ℚ)) : List ℚ :=
  xs.filterMap id

/-- pandas `Series.mean()` (skipna): the mean of the non-null values, NaN
(`none`) when every value is null. -/
def pdMean (xs : List (Option ℚ)) : Option ℚ :=
  if nonNull xs = [] then none
  else some ((nonNull xs).sum / ((nonNull xs).length : ℚ))

/-- pandas `Series.sum()` (skipna): the sum of the non-null values (`0`
when every value is null). -/
def pdSum (xs : List (Option ℚ)) : ℚ :=
  (nonNull xs).sum

/-- numpy `ndarray.mean()`: NaN (`none`) on an empty array and whenever any
entry is NaN, otherwise the plain mean. -/
def npMean (xs : List (Option ℚ)) : Option ℚ :=
  if xs = [] ∨ xs.any Option.isNone = true then none
  else some ((nonNull xs).sum / (xs.length : ℚ))

/-- numpy `ndarray.sum()`: NaN (`none`) whenever any entry is NaN,
otherwise the plain sum (`0` on an empty array). -/
def npSum (xs : List (Option ℚ)) : Option ℚ :=
  if xs.any Option.isNone = true then none
  else some (nonNull xs).sum

/-- The per-decade summary stored by `get_climate_data` (`app.py`,
lines 111-114): pandas mean of the temperature column (possibly NaN) and
pandas sum of the precipitation column divided by `10.0`. -/
structure Metrics where
  temp : Option ℚ
  precip : ℚ
deriving Repr, DecidableEq

/-- The summary `{"temp": d_df["temp"].mean(), "precip": d_df["precip"].sum() / 10.0}`
computed from one decadal slice. -/
def metricsOf (sl : List TimePoint) : Metrics :=
  ⟨pdMean (sl.map TimePoint.temp), pdSum (sl.map TimePoint.precip) / 10⟩

/-- The decade loop of `get_climate_data` (`app.py`, lines 108-114): each
decade window whose slice is non-empty contributes one entry keyed by the
window label; an empty slice contributes nothing (`if not d_df.empty`). -/
def decadeMetrics (s : List TimePoint) : List (String × Metrics) :=
  decades.filterMap (fun w =>
    if decadeSlice w s = [] then none
    else some (w.label, metricsOf (decadeSlice w s)))

/-- The baseline aggregates of `get_climate_data` (`app.py`,
lines 128-129): numpy mean of the temperature array and numpy sum of the
precipitation array divided by `30.0`. -/
structure BaselineAgg where
  temp : Option ℚ
  precip : Option ℚ
deriving Repr, DecidableEq

/-- `baseline_temp = h_temps.mean()` and
`baseline_precip = h_precips.sum() / 30.0` over the historical series. -/
def baselineAgg (s : List TimePoint) : BaselineAgg :=
  ⟨npMean (s.map TimePoint.temp),
   (npSum (s.map TimePoint.precip)).map (fun x => x / 30)⟩

/-- The drought label of `get_climate_labels` (`app.py`, line 203). -/
def droughtLabel (p : ℚ) : String :=
  if p < 500 then "High" else if p < 800 then "Medium" else "Low"

/-- The flood label of `get_climate_labels` (`app.py`, line 204). -/
def floodLabel (p : ℚ) : String :=
  if p > 1200 then "High" else if p > 800 then "Medium" else "Low"

/-- The wildfire label of `get_climate_labels` (`app.py`, line 205). -/
def wildfireLabel (t p : ℚ) : String :=
  if t > 15 ∧ p < 600 then "High" else "Low"

/-- `get_climate_labels` (`app.py`, lines 202-206): the
(drought, flood, wildfire) label triple for a temperature and a
precipitation aggregate. -/
def get_climate_labels (t p : ℚ) : String × String × String :=
  (droughtLabel p, floodLabel p, wildfireLabel t p)

/-- The wildfire label as evaluated on a possibly-NaN temperature: in
Python `nan > 15` is false, so a NaN temperature can never trigger the
high-wildfire branch. -/
def wildfireLabelNaN (t : Option ℚ) (p : ℚ) : String :=
  if t.any (fun v => decide (v > 15)) && decide (p < 600) then "High" else "Low"

/-- The water-risk payload assembled by `get_water_risk_data` (`app.py`,
lines 191-194): the baseline `bws_label` of the zero-or-one intersecting
record, and the future record as a column-name/label association,
each `none` when the query returned zero records. -/
structure WaterData where
  baseline : Option String
  future : Option (List (String × String))
deriving Repr, DecidableEq

/-- Python `pat in s` on strings: `s.splitOn pat` has more than one part
exactly when `pat` occurs in `s` (for the non-empty patterns used here). -/
def strContains (s pat : String) : Bool :=
  (s.splitOn pat).length != 1

/-- Python `str.lower`. -/
def lowerStr (s : String) : String :=
  s.map Char.toLower

/-- `get_water_stress_label` (`app.py`, lines 209-230): with no future
record, fall back to the baseline label or `"No Data"`; otherwise select a
WRI column from the scenario name and the decade label and look it up with
default `"No Data"`. The sequential reassignments of the Python code make
the `ssp2` test take priority, then `ssp5`/`ssp3`, then `ssp1`. -/
def get_water_stress_label (wd : WaterData) (scenario decade : String) : String :=
  match wd.future with
  | none => wd.baseline.getD "No Data"
  | some f =>
    let pfx : String :=
      if strContains (lowerStr scenario) "ssp2" then "bau"
      else if strContains (lowerStr scenario) "ssp5" || strContains (lowerStr scenario) "ssp3" then "pes"
      else if strContains (lowerStr scenario) "ssp1" then "opt"
      else "bau"
    let yr : String :=
      if strContains decade "2040" || strContains decade "2050" then "50" else "30"
    (f.lookup (pfx ++ yr ++ "_ws_x_l")).getD "No Data"

/-- The climate payload handed to `calculate_risk_table`: the baseline
aggregates and, per scenario name in declaration order, the ordered decade
summaries. -/
structure ClimateData where
  baseline_temp : ℚ
  baseline_precip : ℚ
  future : List (String × List (String × Metrics))
deriving Repr, DecidableEq

/-- One row of the final table (`app.py`, lines 238-245 and 257-264). The
`tempCell` and `precipCell` fields carry the numeric content of the Temp
and Precip cells before string formatting: the absolute baseline values in
the baseline row, and the temperature delta and precipitation percent
change in a future row (`none` models a NaN rendering). -/
structure ReportRow where
  scenario : String
  decade : String
  tempCell : Option ℚ
  precipCell : Option ℚ
  waterStress : String
  drought : String
  flood : String
  wildfire : String
deriving Repr, DecidableEq

/-- The `"Current Baseline"` row (`app.py`, lines 234-245). -/
def baselineRow (cd : ClimateData) (wd : WaterData) : ReportRow :=
  { scenario := "Current Baseline"
    decade := "1991-2020"
    tempCell := some cd.baseline_temp
    precipCell := some cd.baseline_precip
    waterStress := wd.baseline.getD "Unknown"
    drought := droughtLabel cd.baseline_precip
    flood := floodLabel cd.baseline_precip
    wildfire := wildfireLabel cd.baseline_temp cd.baseline_precip }

/-- One future row (`app.py`, lines 248-264): temperature delta against the
baseline, precipitation percent change with the `if b_p != 0 else 0`
guard, the WRI water-stress label, and the climate labels of the decade. -/
def futureRow (cd : ClimateData) (wd : WaterData) (sc dec : String) (m : Metrics) : ReportRow :=
  { scenario := sc
    decade := dec
    tempCell := m.temp.map (fun t => t - cd.baseline_temp)
    precipCell := some (if cd.baseline_precip = 0 then 0
      else ((m.precip - cd.baseline_precip) / cd.baseline_precip) * 100)
    waterStress := get_water_stress_label wd sc dec
    drought := droughtLabel m.precip
    flood := floodLabel m.precip
    wildfire := wildfireLabelNaN m.temp m.precip }

/-- `calculate_risk_table` (`app.py`, lines 197-266): the baseline row
followed, in input order, by one row per (scenario, decade) summary. -/
def calculate_risk_table (cd : ClimateData) (wd : WaterData) : List ReportRow :=
  baselineRow cd wd ::
    cd.future.flatMap (fun sc => sc.2.map (fun dm => futureRow cd wd sc.1 dm.1 dm.2))

/-- The (Scenario, Decade) key pair of a row. -/
def rowKey (r : ReportRow) : String × String :=
  (r.scenario, r.decade)

/-- C1: the Risk Classifier labels are fixed-threshold functions of the
inputs: drought is "High" iff p < 500, "Medium" iff 500 <= p < 800, else
"Low"; flood is "High" iff p > 1200, "Medium" iff 800 < p <= 1200, else
"Low"; wildfire is "High" iff t > 15 and p < 600, else "Low". -/
theorem get_climate_labels_thresholds (t p : ℚ) :
    ((get_climate_labels t p).1 = "High" ↔ p < 500) ∧
    ((get_climate_labels t p).1 = "Medium" ↔ 500 ≤ p ∧ p < 800) ∧
    ((get_climate_labels t p).1 = "Low" ↔ 800 ≤ p) ∧
    ((get_climate_labels t p).2.1 = "High" ↔ p > 1200) ∧
    ((get_climate_labels t p).2.1 = "Medium" ↔ 800 < p ∧ p ≤ 1200) ∧
    ((get_climate_labels t p).2.1 = "Low" ↔ p ≤ 800) ∧
    ((get_climate_labels t p).2.2 = "High" ↔ t > 15 ∧ p < 600) ∧
    ((get_climate_labels t p).2.2 = "Low" ↔ ¬(t > 15 ∧ p < 600)) := by
  unfold get_climate_labels droughtLabel floodLabel wildfireLabel
  split_ifs <;> simp_all <;> linarith

/-- C2 counterexample: in the spec scenario (baseline 12.0 deg / 650 mm,
future 14.1 deg / 580 mm per year) the claimed transition of the drought
label from "Medium" to "High" does not happen: 580 is not below the
drought threshold 500, so the future drought label is "Medium". -/
theorem drought_scenario_counterexample :
    ¬((get_climate_labels 12 650).1 = "Medium" ∧
      (get_climate_labels (141/10) 580).1 = "High") := by
  decide

/-- C2 amended: in the spec scenario the drought label is "Medium" for the
baseline (650 mm) and stays "Medium" for the future decade (580 mm per
year), because 580 does not cross the fixed drought threshold 500. -/
theorem drought_scenario_both_medium :
    (get_climate_labels 12 650).1 = "Medium" ∧
    (get_climate_labels (141/10) 580).1 = "Medium" := by
  decide

/-- C10: for every input the local classifier draws drought and flood
labels only from Low/Medium/High and the wildfire label only from
Low/High; the label "Extreme" is never produced. -/
theorem label_range_no_extreme (t p : ℚ) :
    ((get_climate_labels t p).1 = "Low" ∨ (get_climate_labels t p).1 = "Medium" ∨
      (get_climate_labels t p).1 = "High") ∧
    ((get_climate_labels t p).2.1 = "Low" ∨ (get_climate_labels t p).2.1 = "Medium" ∨
      (get_climate_labels t p).2.1 = "High") ∧
    ((get_climate_labels t p).2.2 = "Low" ∨ (get_climate_labels t p).2.2 = "High") ∧
    (get_climate_labels t p).1 ≠ "Extreme" ∧
    (get_climate_labels t p).2.1 ≠ "Extreme" ∧
    (get_climate_labels t p).2.2 ≠ "Extreme" := by
  unfold get_climate_labels droughtLabel floodLabel wildfireLabel
  split_ifs <;> exact (by decide)

/-- Every entry of the decade loop output comes from a window of `decades`
whose slice is non-empty, and carries that window's label and summary. -/
theorem mem_decadeMetrics {s : List TimePoint} {e : String × Metrics}
    (he : e ∈ decadeMetrics s) :
    ∃ w, w ∈ decades ∧ decadeSlice w s ≠ [] ∧ e = (w.label, metricsOf (decadeSlice w s)) := by
  unfold decadeMetrics at he
  rw [List.mem_filterMap] at he
  obtain ⟨w, hw, hsome⟩ := he
  by_cases h : decadeSlice w s = []
  · simp [h] at hsome
  · refine ⟨w, hw, h, ?_⟩
    simp [h] at hsome
    exact hsome.symm

/-- C3 counterexample: with a series whose only sample lies in 2021, the
2030s window has zero intersecting points, yet no summary of any kind for
that window reaches the rendered table (in particular no explicitly
tagged "absent" one): the table has no row whose Decade is the 2030s
label at all. -/
theorem empty_decade_no_row_concrete :
    (calculate_risk_table
        ⟨12, 650, [("SSP2-4.5 (Optimistic)",
          decadeMetrics [⟨2021, 6, 1, some 10, some 2⟩])]⟩
        ⟨none, none⟩).filter (fun r => r.decade == "2030s (2031-40)") = [] := by
  decide

/-- C3 amended: a decade window with zero intersecting points is silently
omitted: the decade loop skips it (`if not d_df.empty`), so the rendered
table contains no row for it whatsoever — hence also never a numeric zero
for it, but no explicitly tagged "absent" value either. -/
theorem empty_decade_window_omitted (w : DecadeWindow) (hw : w ∈ decades)
    (s : List TimePoint) (hempty : decadeSlice w s = [])
    (bt bp : ℚ) (sc : String) (wd : WaterData) :
    ∀ r ∈ calculate_risk_table ⟨bt, bp, [(sc, decadeMetrics s)]⟩ wd,
      r.decade ≠ w.label := by
  have hwlab : w.label = "2020s (2021-30)" ∨ w.label = "2030s (2031-40)" ∨
      w.label = "2040s (2041-50)" := by
    simp only [decades, List.mem_cons, List.mem_singleton, List.not_mem_nil, or_false] at hw
    rcases hw with rfl | rfl | rfl <;> simp
  intro r hr
  unfold calculate_risk_table at hr
  simp only [List.flatMap_cons, List.flatMap_nil, List.append_nil, List.mem_cons,
    List.mem_map] at hr
  rcases hr with rfl | ⟨dm, hdm, rfl⟩
  · show (baselineRow _ _).decade ≠ w.label
    simp only [baselineRow]
    rcases hwlab with h | h | h <;> rw [h] <;> decide
  · show (futureRow _ _ _ _ _).decade ≠ w.label
    simp only [futureRow]
    obtain ⟨w', hw', hne, he⟩ := mem_decadeMetrics hdm
    rw [he]
    intro hlab
    have hlab' : w'.label = w.label := hlab
    have : w' = w := by
      simp only [decades, List.mem_cons, List.mem_singleton, List.not_mem_nil,
        or_false] at hw hw'
      rcases hw with rfl | rfl | rfl <;> rcases hw' with rfl | rfl | rfl <;>
        first | rfl | (exact absurd hlab' (by decide))
    rw [this] at hne
    exact hne hempty

/-- C3 amended, witness: the theorem applied to the empty 2030s window of
a concrete one-sample series, evaluated at the table's baseline row. -/
theorem empty_decade_window_omitted_witness :
    (baselineRow ⟨12, 650, [("SSP2-4.5 (Optimistic)",
        decadeMetrics [⟨2021, 6, 1, some 10, some 2⟩])]⟩ ⟨none, none⟩).decade ≠
      "2030s (2031-40)" :=
  empty_decade_window_omitted ⟨"2030s (2031-40)", 2031, 2040⟩ (by decide)
    [⟨2021, 6, 1, some 10, some 2⟩] (by decide) 12 650 "SSP2-4.5 (Optimistic)"
    ⟨none, none⟩ _ (by decide)

/-- C4, evaluation at the failing input: a series covering only 2031-2035
(five daily samples of 100 mm) observes a precipitation sum of 500 mm in
the 2030s window, yet the reported decade summary is 500 / 10 = 50 — the
sum is unconditionally divided by 10 even though the window is incomplete,
and no partial flag exists in the summary. -/
theorem incomplete_decade_rescaled_eval :
    decadeMetrics
        [⟨2031, 1, 1, some 10, some 100⟩, ⟨2032, 1, 1, some 10, some 100⟩,
         ⟨2033, 1, 1, some 10, some 100⟩, ⟨2034, 1, 1, some 10, some 100⟩,
         ⟨2035, 1, 1, some 10, some 100⟩] =
      [("2030s (2031-40)", ⟨some 10, 50⟩)] ∧
    pdSum ([⟨2031, 1, 1, some 10, some 100⟩, ⟨2032, 1, 1, some 10, some 100⟩,
         ⟨2033, 1, 1, some 10, some 100⟩, ⟨2034, 1, 1, some 10, some 100⟩,
         ⟨2035, 1, 1, some 10, some 100⟩].map TimePoint.precip) = 500 := by
  constructor
  · norm_num [decadeMetrics, decades, decadeSlice, inDecade, metricsOf,
      pdMean, pdSum, nonNull, List.filter, List.filterMap, Metrics.mk.injEq]
    simp
  · norm_num [pdSum, nonNull, List.filterMap]

/-- C5 counterexample: a baseline series with one null sample. The
aggregate over only the non-null values would be `some 10` for
temperature and `some (5 / 30)` for annualized precipitation, but the
numpy-based baseline computation returns NaN for both: the null poisons
the baseline aggregates instead of being excluded. -/
theorem baseline_null_poisons_counterexample :
    (baselineAgg [⟨1991, 1, 1, some 10, some 5⟩, ⟨1991, 1, 2, none, none⟩]).temp ≠
        pdMean ([⟨1991, 1, 1, some 10, some 5⟩,
          ⟨1991, 1, 2, none, none⟩].map TimePoint.temp) ∧
    (baselineAgg [⟨1991, 1, 1, some 10, some 5⟩, ⟨1991, 1, 2, none, none⟩]).precip ≠
        some (pdSum ([⟨1991, 1, 1, some 10, some 5⟩,
          ⟨1991, 1, 2, none, none⟩].map TimePoint.precip) / 30) := by
  constructor
  · norm_num [baselineAgg, npMean, npSum, pdMean, pdSum, nonNull, List.filterMap]
    simp
  · norm_num [baselineAgg, npMean, npSum, pdMean, pdSum, nonNull, List.filterMap]
    simp

/-- C5 amended: each decade summary is computed over only the non-null
values of the window (pandas skipna: the temperature mean and the
precipitation sum range over `nonNull`), so nulls are excluded there and
never treated as zero; the baseline aggregates, computed with numpy over
the full array, are instead poisoned by nulls: any null temperature makes
the baseline mean temperature NaN and any null precipitation makes the
annualized baseline precipitation NaN. -/
theorem null_handling_aggregates (sl s : List TimePoint) :
    ((metricsOf sl).temp = pdMean (sl.map TimePoint.temp) ∧
     (metricsOf sl).precip = (nonNull (sl.map TimePoint.precip)).sum / 10) ∧
    ((∃ p ∈ s, p.temp = none) → (baselineAgg s).temp = none) ∧
    ((∃ p ∈ s, p.precip = none) → (baselineAgg s).precip = none) := by
  refine ⟨⟨rfl, rfl⟩, ?_, ?_⟩
  · rintro ⟨p, hp, hnone⟩
    unfold baselineAgg npMean
    have h : (s.map TimePoint.temp).any Option.isNone = true := by
      rw [List.any_eq_true]
      exact ⟨none, List.mem_map.mpr ⟨p, hp, hnone⟩, rfl⟩
    simp [h]
  · rintro ⟨p, hp, hnone⟩
    unfold baselineAgg npSum
    have h : (s.map TimePoint.precip).any Option.isNone = true := by
      rw [List.any_eq_true]
      exact ⟨none, List.mem_map.mpr ⟨p, hp, hnone⟩, rfl⟩
    simp [h]

/-- C5 amended, witness: the poisoning clause applied to a concrete
one-sample series whose temperature is null. -/
theorem null_handling_aggregates_witness :
    (baselineAgg [⟨1991, 1, 1, none, none⟩]).temp = none :=
  (null_handling_aggregates [] [⟨1991, 1, 1, none, none⟩]).2.1
    ⟨⟨1991, 1, 1, none, none⟩, List.mem_singleton.mpr rfl, rfl⟩

/-- C9: window bounds are inclusive: a sample of the series dated in the
start or end year of a decade window (in particular one dated exactly on
the window's first day) lands in that window's slice, and the window then
contributes its summary — computed over that slice — to the decade loop
output. -/
theorem window_bounds_inclusive (w : DecadeWindow) (hw : w ∈ decades)
    (s : List TimePoint) (p : TimePoint) (hp : p ∈ s)
    (hb : p.year = w.startYear ∨ p.year = w.endYear) :
    p ∈ decadeSlice w s ∧
    (w.label, metricsOf (decadeSlice w s)) ∈ decadeMetrics s := by
  have hin : inDecade w p = true := by
    simp only [decades, List.mem_cons, List.mem_singleton, List.not_mem_nil,
      or_false] at hw
    rcases hw with rfl | rfl | rfl <;> rcases hb with hb | hb <;>
      simp [inDecade, hb]
  have hmem : p ∈ decadeSlice w s := List.mem_filter.mpr ⟨hp, hin⟩
  refine ⟨hmem, ?_⟩
  have hne : decadeSlice w s ≠ [] := by
    intro h
    rw [h] at hmem
    exact absurd hmem (List.not_mem_nil p)
  unfold decadeMetrics
  rw [List.mem_filterMap]
  exact ⟨w, hw, by simp [hne]⟩

/-- C9, witness: a sample dated 2031-01-01, the first day of the 2030s
window, is included in that window's slice and summary. -/
theorem window_bounds_inclusive_witness :
    (⟨2031, 1, 1, some 14, some 2⟩ : TimePoint) ∈
        decadeSlice ⟨"2030s (2031-40)", 2031, 2040⟩ [⟨2031, 1, 1, some 14, some 2⟩] ∧
    ("2030s (2031-40)", metricsOf (decadeSlice ⟨"2030s (2031-40)", 2031, 2040⟩
        [⟨2031, 1, 1, some 14, some 2⟩])) ∈
      decadeMetrics [⟨2031, 1, 1, some 14, some 2⟩] :=
  window_bounds_inclusive ⟨"2030s (2031-40)", 2031, 2040⟩ (by decide)
    [⟨2031, 1, 1, some 14, some 2⟩] ⟨2031, 1, 1, some 14, some 2⟩ (by decide) (Or.inl rfl)

/-- The decade labels emitted by the decade loop form a sublist of the
full window-label list, which is in chronological order: present windows
therefore appear in chronological order. -/
theorem decadeMetrics_labels_sublist (s : List TimePoint) :
    List.Sublist ((decadeMetrics s).map Prod.fst) (decades.map DecadeWindow.label) := by
  unfold decadeMetrics
  generalize decades = L
  induction L with
  | nil => simp
  | cons w L ih =>
    by_cases h : decadeSlice w s = []
    · simp only [List.filterMap_cons, if_pos h, List.map_cons]
      exact ih.cons _
    · simp only [List.filterMap_cons, if_neg h, List.map_cons]
      exact ih.cons₂ _

/-- C6: the assembled table is exactly one "Current Baseline" row first,
followed by one row per (scenario, future period) entry in scenario
declaration order and, within a scenario, in the order of that scenario's
period list; no other row carries the baseline scenario name; and the
periods the aggregator hands over per scenario are in chronological
(window-list) order. -/
theorem risk_table_row_order (cd : ClimateData) (wd : WaterData)
    (h : ∀ sc ∈ cd.future, sc.1 ≠ "Current Baseline") :
    (calculate_risk_table cd wd).map rowKey =
      ("Current Baseline", "1991-2020") ::
        cd.future.flatMap (fun sc => sc.2.map (fun dm => (sc.1, dm.1))) ∧
    (∀ r ∈ (calculate_risk_table cd wd).tail, r.scenario ≠ "Current Baseline") ∧
    (∀ s : List TimePoint,
      List.Sublist ((decadeMetrics s).map Prod.fst) (decades.map DecadeWindow.label)) := by
  refine ⟨?_, ?_, decadeMetrics_labels_sublist⟩
  · simp only [calculate_risk_table, List.map_cons, List.map_flatMap, List.map_map]
    rfl
  · intro r hr
    simp only [calculate_risk_table, List.tail_cons, List.mem_flatMap, List.mem_map] at hr
    obtain ⟨sc, hsc, dm, hdm, rfl⟩ := hr
    exact h sc hsc

/-- C6, witness: a two-scenario input produces the baseline row followed
by the scenario rows in declaration order, periods in order within each
scenario. -/
theorem risk_table_row_order_witness :
    (calculate_risk_table ⟨12, 650,
        [("SSP1-2.6 (Ambitious)",
          [("2020s (2021-30)", ⟨some 13, 600⟩), ("2030s (2031-40)", ⟨some 14, 580⟩)]),
         ("SSP3-7.0 (BAU)", [("2020s (2021-30)", ⟨some 13, 590⟩)])]⟩
      ⟨none, none⟩).map rowKey =
      [("Current Baseline", "1991-2020"),
       ("SSP1-2.6 (Ambitious)", "2020s (2021-30)"),
       ("SSP1-2.6 (Ambitious)", "2030s (2031-40)"),
       ("SSP3-7.0 (BAU)", "2020s (2021-30)")] :=
  (risk_table_row_order _ _ (by decide)).1.trans (by decide)

/-- C7: when the hazard lookup returns zero records (both water-risk
queries `none`) while the climate data is present, the table is still
fully produced: it has its full row count, every row's temperature and
precipitation cells are populated, and the water-stress column degrades
to the markers "Unknown" (baseline row) and "No Data" (future rows) —
no empty rows and no aborted analysis. -/
theorem zero_hazard_records_rows (cd : ClimateData)
    (h : ∀ sc ∈ cd.future, ∀ dm ∈ sc.2, (dm.2).temp.isSome = true) :
    (calculate_risk_table cd ⟨none, none⟩).length =
        1 + (cd.future.map (fun sc => sc.2.length)).sum ∧
    (∀ r ∈ calculate_risk_table cd ⟨none, none⟩,
        r.tempCell.isSome = true ∧ r.precipCell.isSome = true) ∧
    ((calculate_risk_table cd ⟨none, none⟩).head?.map ReportRow.waterStress =
        some "Unknown") ∧
    (∀ r ∈ (calculate_risk_table cd ⟨none, none⟩).tail, r.waterStress = "No Data") := by
  refine ⟨?_, ?_, ?_, ?_⟩
  · simp [calculate_risk_table, List.length_flatMap, Function.comp_def, List.length_map,
      Nat.add_comm]
  · intro r hr
    simp only [calculate_risk_table, List.mem_cons, List.mem_flatMap, List.mem_map] at hr
    rcases hr with rfl | ⟨sc, hsc, dm, hdm, rfl⟩
    · exact ⟨rfl, rfl⟩
    · refine ⟨?_, rfl⟩
      simp only [futureRow, Option.isSome_map']
      exact h sc hsc dm hdm
  · rfl
  · intro r hr
    simp only [calculate_risk_table, List.tail_cons, List.mem_flatMap, List.mem_map] at hr
    obtain ⟨sc, hsc, dm, hdm, rfl⟩ := hr
    rfl

/-- C7, witness: the theorem applied to a concrete one-scenario climate
payload with both hazard queries empty. -/
theorem zero_hazard_records_rows_witness :
    (calculate_risk_table ⟨12, 650,
        [("SSP1-2.6 (Ambitious)", [("2020s (2021-30)", ⟨some 13, 600⟩)])]⟩
      ⟨none, none⟩).head?.map ReportRow.waterStress = some "Unknown" :=
  (zero_hazard_records_rows ⟨12, 650,
      [("SSP1-2.6 (Ambitious)", [("2020s (2021-30)", ⟨some 13, 600⟩)])]⟩
    (by decide)).2.2.1

/-- C8 counterexample: with a degenerate baseline precipitation of 0, the
future row's precipitation percent-change cell is the substituted default
numeric value 0 (rendered "0.0 %"), not a "not available" marker: the
Precip column of the table evaluates to `[some 0, some 0]`. -/
theorem zero_baseline_percent_counterexample :
    (calculate_risk_table ⟨12, 0,
        [("SSP3-7.0 (BAU)", [("2030s (2031-40)", ⟨none, 580⟩)])]⟩
      ⟨none, none⟩).map ReportRow.precipCell = [some 0, some 0] := by
  decide

/-- C8 amended: missing water-stress data does propagate as explicit
markers, but a degenerate (zero) baseline precipitation does not: the
`if b_p != 0 else 0` guard substitutes the default numeric 0 as the
percent change of every future row instead of a "not available" marker. -/
theorem zero_baseline_percent_default (cd : ClimateData) (wd : WaterData)
    (h : cd.baseline_precip = 0) :
    ∀ r ∈ (calculate_risk_table cd wd).tail, r.precipCell = some 0 := by
  intro r hr
  simp only [calculate_risk_table, List.tail_cons, List.mem_flatMap, List.mem_map] at hr
  obtain ⟨sc, hsc, dm, hdm, rfl⟩ := hr
  simp [futureRow, h]

/-- C8 amended, witness: the theorem applied to a concrete zero-baseline
payload, evaluated at its single future row. -/
theorem zero_baseline_percent_default_witness :
    (futureRow ⟨12, 0, [("SSP3-7.0 (BAU)", [("2030s (2031-40)", ⟨none, 580⟩)])]⟩
        ⟨none, none⟩ "SSP3-7.0 (BAU)" "2030s (2031-40)" ⟨none, 580⟩).precipCell =
      some 0 :=
  zero_baseline_percent_default
    ⟨12, 0, [("SSP3-7.0 (BAU)", [("2030s (2031-40)", ⟨none, 580⟩)])]⟩
    ⟨none, none⟩ rfl
    (futureRow ⟨12, 0, [("SSP3-7.0 (BAU)", [("2030s (2031-40)", ⟨none, 580⟩)])]⟩
      ⟨none, none⟩ "SSP3-7.0 (BAU)" "2030s (2031-40)" ⟨none, 580⟩) (by decide)
